import Mathlib

/-!
Verification of the Kube Credential services: a shallow embedding of the
issuance handler (backend/issuance-service/src/index.ts, POST /issue), the
verification handler (POST /verify) and the sqlite-backed storage layer
(backend/issuance-service/src/storage.ts), together with proofs of the
behavioural properties stated in the specification.

Request and response bodies are JSON values as delivered by the JSON body
parser.  JavaScript numbers are modelled as integers (no claim depends on
float behaviour; only truthiness of 0 matters).  The sqlite table
`credentials (id TEXT PRIMARY KEY, data TEXT NOT NULL, ...)` is modelled as
an association list from the bound id value to the stored record; a plain
INSERT on an existing primary key fails with a constraint error, which
`storageSave` reflects as `Except.error`.  Since `save` stringifies the
record and `get` parses it back, and JSON stringify/parse is the identity
on JSON values, the store holds the record directly.
-/

namespace KubeCredential

/-! ### JSON values -/

inductive Json where
  | null
  | bool (b : Bool)
  | num (n : Int)
  | str (s : String)
  | arr (elems : List Json)
  | obj (fields : List (String × Json))

mutual

/-- Structural equality of JSON values (decidable equality is derived from
it below; the automatic deriving handler does not support this nested
inductive). -/
def Json.beq : Json → Json → Bool
  | .null, .null => true
  | .bool a, .bool b => a == b
  | .num a, .num b => a == b
  | .str a, .str b => a == b
  | .arr xs, .arr ys => Json.beqList xs ys
  | .obj fs, .obj gs => Json.beqFields fs gs
  | _, _ => false

/-- Structural equality of lists of JSON values. -/
def Json.beqList : List Json → List Json → Bool
  | [], [] => true
  | x :: xs, y :: ys => Json.beq x y && Json.beqList xs ys
  | _, _ => false

/-- Structural equality of JSON object field lists. -/
def Json.beqFields : List (String × Json) → List (String × Json) → Bool
  | [], [] => true
  | (k, v) :: fs, (l, w) :: gs => k == l && Json.beq v w && Json.beqFields fs gs
  | _, _ => false

end

theorem Json.beq_spec :
    (∀ a b : Json, (Json.beq a b = true ↔ a = b)) ∧
    (∀ fs gs : List (String × Json), (Json.beqFields fs gs = true ↔ fs = gs)) ∧
    (∀ xs ys : List Json, (Json.beqList xs ys = true ↔ xs = ys)) := by
  refine Json.beq.mutual_induct
    (fun a b => Json.beq a b = true ↔ a = b)
    (fun fs gs => Json.beqFields fs gs = true ↔ fs = gs)
    (fun xs ys => Json.beqList xs ys = true ↔ xs = ys)
    ?_ ?_ ?_ ?_ ?_ ?_ ?_ ?_ ?_ ?_ ?_ ?_ ?_
  case _ => simp [Json.beq]
  case _ => intro a b; simp [Json.beq]
  case _ => intro a b; simp [Json.beq]
  case _ => intro a b; simp [Json.beq]
  case _ => intro xs ys ih; simp [Json.beq, ih]
  case _ => intro fs gs ih; simp [Json.beq, ih]
  case _ =>
    intro t x h1 h2 h3 h4 h5 h6
    cases t <;> cases x
    case null.null => exact (h1 rfl rfl).elim
    case bool.bool => exact (h2 _ _ rfl rfl).elim
    case num.num => exact (h3 _ _ rfl rfl).elim
    case str.str => exact (h4 _ _ rfl rfl).elim
    case arr.arr => exact (h5 _ _ rfl rfl).elim
    case obj.obj => exact (h6 _ _ rfl rfl).elim
    all_goals simp [Json.beq.eq_def]
  case _ => simp [Json.beqList]
  case _ => intro y ys z zs ih ihl; simp [Json.beqList, ih, ihl]
  case _ =>
    intro t x h1 h2
    cases t <;> cases x
    case nil.nil => exact (h1 rfl rfl).elim
    case cons.cons => exact (h2 _ _ _ _ rfl rfl).elim
    all_goals simp [Json.beqList.eq_def]
  case _ => simp [Json.beqFields]
  case _ => intro k v fs l w gs ih ihf; simp [Json.beqFields, ih, ihf, and_assoc]
  case _ =>
    intro t x h1 h2
    rcases t with _ | ⟨⟨k, v⟩, fs⟩ <;> rcases x with _ | ⟨⟨l, w⟩, gs⟩
    · exact (h1 rfl rfl).elim
    · simp [Json.beqFields.eq_def]
    · simp [Json.beqFields.eq_def]
    · exact (h2 _ _ _ _ _ _ rfl rfl).elim

theorem Json.beq_iff_eq (a b : Json) : Json.beq a b = true ↔ a = b :=
  Json.beq_spec.1 a b

instance : DecidableEq Json :=
  fun a b => decidable_of_iff _ (Json.beq_iff_eq a b)

/-! ### JavaScript semantics used by the handlers -/

/-- Truthiness of a JSON value under JavaScript coercion to Bool:
null, false, 0 and the empty string are falsy; arrays and objects are
always truthy. -/
def truthy : Json → Bool
  | .null => false
  | .bool b => b
  | .num n => n != 0
  | .str s => s != ""
  | .arr _ => true
  | .obj _ => true

/-- Whether `typeof x` evaluates to the string object in JavaScript:
true for null, arrays and plain objects, false for booleans, numbers and
strings. -/
def isObjectType : Json → Bool
  | .null => true
  | .arr _ => true
  | .obj _ => true
  | _ => false

/-- The body-validation guard shared by both handlers:
`if (!credential || typeof credential !== 'object')` rejects the body.
The body passes exactly when it is truthy and of object type, i.e. exactly
when it is an array or a plain object. -/
def bodyIsStructured (body : Json) : Bool :=
  truthy body && isObjectType body

/-- First binding of a key in a field list (JSON objects parsed from input
have unique keys; lookup takes the first occurrence). -/
def lookupField : List (String × Json) → String → Option Json
  | [], _ => none
  | (k, v) :: fs, key => if k = key then some v else lookupField fs key

/-- JavaScript property access `x[key]`: defined for plain objects;
`undefined` (here: none) for arrays (which have no such string key) and
primitives. -/
def getProp : Json → String → Option Json
  | .obj fields, key => lookupField fields key
  | _, _ => none

/-- Fields contributed by spreading a list of array elements into an object
literal: index keys 0, 1, 2, ... -/
def enumFields : Nat → List Json → List (String × Json)
  | _, [] => []
  | i, x :: xs => (toString i, x) :: enumFields (i + 1) xs

/-- Fields contributed by `...credential` inside an object literal: the own
fields for an object, index-keyed elements for an array.  Primitives never
reach this point (the validation guard rejects them). -/
def spreadFields : Json → List (String × Json)
  | .obj fields => fields
  | .arr elems => enumFields 0 elems
  | _ => []

/-- Setting a key in an object literal: a later `key: v` entry overwrites
the value of an existing key in place and is appended otherwise, as in
JavaScript object semantics. -/
def setField : List (String × Json) → String → Json → List (String × Json)
  | [], key, v => [(key, v)]
  | (k, w) :: fs, key, v =>
      if k = key then (k, v) :: fs else (k, w) :: setField fs key v

/-- The object `{...credential, id: idVal}` built by the issue handler. -/
def jsonSetId (body : Json) (idVal : Json) : Json :=
  .obj (setField (spreadFields body) "id" idVal)

/-- The resolved credential id, from `credential.id || uuidv4()`: the
supplied `id` property if it is truthy, otherwise the freshly generated
UUID string. -/
def resolveIssueId (body : Json) (freshUuid : String) : Json :=
  match getProp body "id" with
  | some v => if truthy v then v else .str freshUuid
  | none => .str freshUuid

/-! ### Storage layer (storage.ts over the sqlite credentials table) -/

/-- Value stored for one credential id: the JSON object passed to
`storage.save` by the issue handler, namely
`{credential: credentialWithId, worker: WORKER_ID, timestamp: ...}`. -/
structure StoredRecord where
  credential : Json
  worker : String
  timestamp : String
  deriving DecidableEq

/-- Contents of the credentials table: an association list from the bound
id value to the stored row.  A fresh row is consed to the front; order is
irrelevant because ids are unique. -/
abbrev Store := List (Json × StoredRecord)

/-- Row lookup by primary key, the semantics of
`SELECT ... FROM credentials WHERE id = ?`. -/
def lookupStore : Store → Json → Option StoredRecord
  | [], _ => none
  | (k, r) :: rest, i => if k = i then some r else lookupStore rest i

/-- Storage.exists: `SELECT id FROM credentials WHERE id = ?` followed by
a truthiness test of the row. -/
def storageExists (s : Store) (i : Json) : Bool :=
  (lookupStore s i).isSome

/-- Error raised by the sqlite engine when a plain INSERT hits an existing
primary key. -/
inductive SqliteError where
  | primaryKeyConflict
  deriving DecidableEq

/-- Storage.save: `INSERT INTO credentials (id, data) VALUES (?, ?)`.
The INSERT has no OR REPLACE clause and the table declares
`id TEXT PRIMARY KEY`, so the engine rejects a duplicate id with a
constraint error, which the method rethrows. -/
def storageSave (s : Store) (i : Json) (r : StoredRecord) :
    Except SqliteError Store :=
  if storageExists s i then .error .primaryKeyConflict
  else .ok ((i, r) :: s)

/-- Storage.get: `SELECT data FROM credentials WHERE id = ?`, returning
the parsed row when present and an explicit null (here: none) when the
key is missing; a missing key never throws. -/
def storageGet (s : Store) (i : Json) : Option StoredRecord :=
  lookupStore s i

/-! ### HTTP handlers -/

/-- Storage calls a handler performs, in order, for the access-trace
instrumentation (a call is recorded whether or not a row comes back). -/
inductive StorageOp where
  | existsCheck (i : Json)
  | saveRow (i : Json)
  | getRow (i : Json)
  deriving DecidableEq

/-- Ambient inputs of one issue request: the WORKER_ID of the service
instance, the UUID that uuidv4() would return, and the two values that the
two successive `new Date().toISOString()` calls produce (the first is
stored with the record, the second is placed in the response). -/
structure IssueCtx where
  workerId : String
  freshUuid : String
  tsStore : String
  tsResp : String
  deriving DecidableEq

/-- Outcome of POST /issue: 400 invalid format, 409 already issued,
201 issued, or 500 from the catch block. -/
inductive IssueResult where
  | invalidFormat
  | conflict
  | issued (worker : String) (credentialId : Json) (timestamp : String)
  | serverError
  deriving DecidableEq

/-- The POST /issue handler of the issuance service: validates the body,
resolves the credential id, rejects an already-issued id with a conflict,
otherwise saves the record and answers 201.  A storage error (in
particular a primary-key conflict raced past the exists check) is caught
by the surrounding try/catch and answered as a 500 server error.  The
returned triple is the response, the store after the request, and the
trace of storage calls made. -/
def issueHandler (ctx : IssueCtx) (body : Json) (s : Store) :
    IssueResult × Store × List StorageOp :=
  if bodyIsStructured body then
    let credentialId := resolveIssueId body ctx.freshUuid
    let credentialWithId := jsonSetId body credentialId
    if storageExists s credentialId then
      (.conflict, s, [.existsCheck credentialId])
    else
      match storageSave s credentialId
          ⟨credentialWithId, ctx.workerId, ctx.tsStore⟩ with
      | .ok s2 =>
          (.issued ctx.workerId credentialId ctx.tsResp, s2,
            [.existsCheck credentialId, .saveRow credentialId])
      | .error _ =>
          (.serverError, s, [.existsCheck credentialId, .saveRow credentialId])
  else
    (.invalidFormat, s, [])

/-- Outcome of POST /verify: 400 invalid format, 400 missing credential id,
404 with status invalid, 200 with status valid, or 500 from the catch
block (which no reachable path produces). -/
inductive VerifyResult where
  | invalidFormat
  | idRequired
  | notFound
  | valid (worker : String) (timestamp : String) (credential : Json)
  | serverError
  deriving DecidableEq

/-- The POST /verify handler of the verification service: validates the
body, requires a truthy `id` property, looks the id up in storage, and
answers 404 status invalid when absent or 200 status valid with the stored
worker, timestamp and credential when present. -/
def verifyHandler (body : Json) (s : Store) :
    VerifyResult × Store × List StorageOp :=
  if bodyIsStructured body then
    match getProp body "id" with
    | none => (.idRequired, s, [])
    | some v =>
        if truthy v then
          match storageGet s v with
          | some r => (.valid r.worker r.timestamp r.credential, s, [.getRow v])
          | none => (.notFound, s, [.getRow v])
        else (.idRequired, s, [])
  else
    (.invalidFormat, s, [])

/-! ### Two racing issue requests

Storage operations are the only suspension points of the handler, so an
interleaving of two concurrent issue requests for the same resolved id is
a schedule of their atomic storage steps.  Each request performs the
exists check and then, if the id was absent, the save; the save is the
atomic insert-or-fail of the storage engine. -/

/-- Progress of one in-flight issue request that has passed validation:
about to run the exists check, about to run the save, or finished with a
response. -/
inductive Phase where
  | atExists
  | atSave
  | finished (res : IssueResult)
  deriving DecidableEq

/-- Joint state of the store and the two racing requests. -/
structure RaceState where
  store : Store
  p1 : Phase
  p2 : Phase
  deriving DecidableEq

/-- One atomic step of a single request issuing id `i` with record `r`:
the exists check answers conflict or advances to the save; the save
succeeds and answers 201, or hits the primary-key constraint and answers
500 through the catch block.  A finished request does not move. -/
def stepReq (i : Json) (r : StoredRecord) (s : Store) : Phase → Store × Phase
  | .atExists =>
      if storageExists s i then (s, .finished .conflict) else (s, .atSave)
  | .atSave =>
      match storageSave s i r with
      | .ok s2 => (s2, .finished (.issued r.worker i r.timestamp))
      | .error _ => (s, .finished .serverError)
  | .finished res => (s, .finished res)

/-- One scheduler step: true steps request 1, false steps request 2. -/
def raceStep (i : Json) (r1 r2 : StoredRecord) (st : RaceState)
    (choice : Bool) : RaceState :=
  if choice then
    let next := stepReq i r1 st.store st.p1
    ⟨next.1, next.2, st.p2⟩
  else
    let next := stepReq i r2 st.store st.p2
    ⟨next.1, st.p1, next.2⟩

/-- Run a whole schedule of interleaved steps. -/
def raceRun (i : Json) (r1 r2 : StoredRecord) (st : RaceState) :
    List Bool → RaceState
  | [] => st
  | c :: cs => raceRun i r1 r2 (raceStep i r1 r2 st c) cs

/-- Whether a request finished with a 201 issued response. -/
def isIssued : Phase → Bool
  | .finished (.issued _ _ _) => true
  | _ => false

/-- Whether a request has produced its response. -/
def isFinished : Phase → Bool
  | .finished _ => true
  | _ => false

/-- Phases a request that will not (or did not) win the race can be in:
still before its exists check or save, or finished with the 409 conflict
or the 500 constraint-error response. -/
def loserPhase (p : Phase) : Prop :=
  p = .atExists ∨ p = .atSave ∨
    p = .finished .conflict ∨ p = .finished .serverError

/-- Inductive invariant of the race for id `i`: while the id is absent
from the store neither request has finished, and once it is present
exactly one request has finished with the issued response while the other
is in a loser phase. -/
def raceInv (i : Json) (st : RaceState) : Prop :=
  if storageExists st.store i then
    (isIssued st.p1 = true ∧ loserPhase st.p2) ∨
      (loserPhase st.p1 ∧ isIssued st.p2 = true)
  else
    (st.p1 = .atExists ∨ st.p1 = .atSave) ∧
      (st.p2 = .atExists ∨ st.p2 = .atSave)

/-- Bodies that are neither arrays nor plain objects: exactly the bodies
the guard `!credential || typeof credential !== 'object'` rejects. -/
def isPrimitiveBody : Json → Bool
  | .arr _ => false
  | .obj _ => false
  | _ => true

/-! ### Helper lemmas -/

theorem bodyIsStructured_of_getProp {body : Json} {k : String} {v : Json}
    (h : getProp body k = some v) : bodyIsStructured body = true := by
  cases body <;> first | rfl | exact absurd h (by simp [getProp])

theorem bodyIsStructured_of_primitive {body : Json}
    (h : isPrimitiveBody body = true) : bodyIsStructured body = false := by
  cases body <;> simp_all [isPrimitiveBody, bodyIsStructured, truthy, isObjectType]

theorem truthy_resolveIssueId (body : Json) (u : String) (hu : u ≠ "") :
    truthy (resolveIssueId body u) = true := by
  rw [resolveIssueId]
  cases hid : getProp body "id" with
  | none => simp [truthy, bne_iff_ne, hu]
  | some v =>
      dsimp only
      by_cases hv : truthy v = true
      · rw [if_pos hv]; exact hv
      · rw [if_neg hv]; simp [truthy, bne_iff_ne, hu]

theorem issueHandler_invalid (ctx : IssueCtx) (body : Json) (s : Store)
    (hb : bodyIsStructured body = false) :
    issueHandler ctx body s = (.invalidFormat, s, []) := by
  simp [issueHandler, hb]

theorem issueHandler_present (ctx : IssueCtx) (body : Json) (s : Store)
    (hb : bodyIsStructured body = true)
    (hpresent : storageExists s (resolveIssueId body ctx.freshUuid) = true) :
    issueHandler ctx body s =
      (.conflict, s, [.existsCheck (resolveIssueId body ctx.freshUuid)]) := by
  simp [issueHandler, hb, hpresent]

theorem issueHandler_absent (ctx : IssueCtx) (body : Json) (s : Store)
    (hb : bodyIsStructured body = true)
    (habsent : storageExists s (resolveIssueId body ctx.freshUuid) = false) :
    issueHandler ctx body s =
      (.issued ctx.workerId (resolveIssueId body ctx.freshUuid) ctx.tsResp,
       (resolveIssueId body ctx.freshUuid,
         ⟨jsonSetId body (resolveIssueId body ctx.freshUuid),
           ctx.workerId, ctx.tsStore⟩) :: s,
       [.existsCheck (resolveIssueId body ctx.freshUuid),
        .saveRow (resolveIssueId body ctx.freshUuid)]) := by
  simp [issueHandler, hb, habsent, storageSave]

theorem lookupStore_cons_self (i : Json) (r : StoredRecord) (s : Store) :
    lookupStore ((i, r) :: s) i = some r := by
  simp [lookupStore]

theorem storageExists_cons_self (i : Json) (r : StoredRecord) (s : Store) :
    storageExists ((i, r) :: s) i = true := by
  simp [storageExists, lookupStore]

theorem loserPhase_of_pending {p : Phase}
    (hp : p = .atExists ∨ p = .atSave) : loserPhase p :=
  hp.elim (fun h => Or.inl h) (fun h => Or.inr (Or.inl h))

theorem loser_finished {p : Phase} (hl : loserPhase p)
    (hf : isFinished p = true) :
    p = .finished .conflict ∨ p = .finished .serverError := by
  rcases hl with rfl | rfl | rfl | rfl <;> simp_all [isFinished]

theorem stepReq_of_exists (i : Json) (r : StoredRecord) (s : Store)
    (he : storageExists s i = true) (p : Phase) :
    (stepReq i r s p).1 = s ∧
    (loserPhase p → loserPhase (stepReq i r s p).2) ∧
    (isIssued p = true → (stepReq i r s p).2 = p) := by
  cases p with
  | atExists => simp [stepReq, he, loserPhase, isIssued]
  | atSave => simp [stepReq, storageSave, he, loserPhase, isIssued]
  | finished res => simp [stepReq, loserPhase, isIssued]

theorem stepReq_of_absent (i : Json) (r : StoredRecord) (s : Store)
    (he : storageExists s i = false) (p : Phase)
    (hp : p = .atExists ∨ p = .atSave) :
    (stepReq i r s p = (s, .atSave) ∧ p = .atExists) ∨
    (stepReq i r s p =
      ((i, r) :: s, .finished (.issued r.worker i r.timestamp)) ∧
      p = .atSave) := by
  rcases hp with rfl | rfl
  · left; exact ⟨by simp [stepReq, he], rfl⟩
  · right; exact ⟨by simp [stepReq, storageSave, he], rfl⟩

theorem raceInv_step (i : Json) (r1 r2 : StoredRecord) (st : RaceState)
    (c : Bool) (h : raceInv i st) : raceInv i (raceStep i r1 r2 st c) := by
  obtain ⟨s, p1, p2⟩ := st
  by_cases he : storageExists s i = true
  · rw [raceInv, if_pos he] at h
    cases c with
    | true =>
        obtain ⟨h1, h2, h3⟩ := stepReq_of_exists i r1 s he p1
        show raceInv i ⟨(stepReq i r1 s p1).1, (stepReq i r1 s p1).2, p2⟩
        rw [raceInv, h1, if_pos he]
        rcases h with ⟨hi1, hl2⟩ | ⟨hl1, hi2⟩
        · exact Or.inl ⟨by rw [h3 hi1]; exact hi1, hl2⟩
        · exact Or.inr ⟨h2 hl1, hi2⟩
    | false =>
        obtain ⟨h1, h2, h3⟩ := stepReq_of_exists i r2 s he p2
        show raceInv i ⟨(stepReq i r2 s p2).1, p1, (stepReq i r2 s p2).2⟩
        rw [raceInv, h1, if_pos he]
        rcases h with ⟨hi1, hl2⟩ | ⟨hl1, hi2⟩
        · exact Or.inl ⟨hi1, h2 hl2⟩
        · exact Or.inr ⟨hl1, by rw [h3 hi2]; exact hi2⟩
  · have he2 : storageExists s i = false := by
      cases hx : storageExists s i
      · rfl
      · exact absurd hx he
    rw [raceInv, if_neg he] at h
    obtain ⟨hp1, hp2⟩ := h
    cases c with
    | true =>
        show raceInv i ⟨(stepReq i r1 s p1).1, (stepReq i r1 s p1).2, p2⟩
        rcases stepReq_of_absent i r1 s he2 p1 hp1 with ⟨heq, hpe⟩ | ⟨heq, hpe⟩
        · rw [heq, raceInv]
          rw [if_neg he]
          exact ⟨Or.inr rfl, hp2⟩
        · rw [heq, raceInv]
          rw [if_pos (storageExists_cons_self i r1 s)]
          exact Or.inl ⟨rfl, loserPhase_of_pending hp2⟩
    | false =>
        show raceInv i ⟨(stepReq i r2 s p2).1, p1, (stepReq i r2 s p2).2⟩
        rcases stepReq_of_absent i r2 s he2 p2 hp2 with ⟨heq, hpe⟩ | ⟨heq, hpe⟩
        · rw [heq, raceInv]
          rw [if_neg he]
          exact ⟨hp1, Or.inr rfl⟩
        · rw [heq, raceInv]
          rw [if_pos (storageExists_cons_self i r2 s)]
          exact Or.inr ⟨loserPhase_of_pending hp1, rfl⟩

theorem raceInv_run (i : Json) (r1 r2 : StoredRecord) (sched : List Bool)
    (st : RaceState) (h : raceInv i st) :
    raceInv i (raceRun i r1 r2 st sched) := by
  induction sched generalizing st with
  | nil => exact h
  | cons c cs ih => exact ih _ (raceInv_step i r1 r2 st c h)

theorem verifyHandler_found (v : Json) (s : Store) (r : StoredRecord)
    (htr : truthy v = true) (hget : lookupStore s v = some r) :
    verifyHandler (.obj [("id", v)]) s =
      (.valid r.worker r.timestamp r.credential, s, [.getRow v]) := by
  have hgp : getProp (Json.obj [("id", v)]) "id" = some v := by
    simp [getProp, lookupField]
  have hbv : bodyIsStructured (Json.obj [("id", v)]) = true := rfl
  simp [verifyHandler, hbv, hgp, htr, storageGet, hget]

/-! ### Claims -/

/-- C1: once a record with an id is stored, every subsequent issue request
whose resolved id equals that id is answered with the 409 conflict
outcome; the handler performs no write (its only storage call is the
exists check) and the store, in particular the original record with its
worker and timestamp, is unchanged. -/
theorem issue_duplicate_conflict (ctx : IssueCtx) (body : Json) (s : Store)
    (r0 : StoredRecord)
    (hb : bodyIsStructured body = true)
    (hstored : lookupStore s (resolveIssueId body ctx.freshUuid) = some r0) :
    issueHandler ctx body s =
      (.conflict, s, [.existsCheck (resolveIssueId body ctx.freshUuid)]) ∧
    lookupStore (issueHandler ctx body s).2.1
      (resolveIssueId body ctx.freshUuid) = some r0 := by
  have he : storageExists s (resolveIssueId body ctx.freshUuid) = true := by
    simp [storageExists, hstored]
  have h := issueHandler_present ctx body s hb he
  exact ⟨h, by rw [h]; exact hstored⟩

/-- C1 witness: a second issuance for the explicit id X against a store
already holding X is a conflict and leaves the original record intact. -/
theorem issue_duplicate_conflict_witness :
    issueHandler ⟨"worker-2", "uuid-2", "T3", "T4"⟩ (.obj [("id", .str "X")])
        [(.str "X", ⟨.obj [("id", .str "X")], "worker-1", "T0"⟩)] =
      (.conflict, [(.str "X", ⟨.obj [("id", .str "X")], "worker-1", "T0"⟩)],
        [.existsCheck
          (resolveIssueId (.obj [("id", .str "X")]) "uuid-2")]) ∧
    lookupStore (issueHandler ⟨"worker-2", "uuid-2", "T3", "T4"⟩
        (.obj [("id", .str "X")])
        [(.str "X", ⟨.obj [("id", .str "X")], "worker-1", "T0"⟩)]).2.1
      (resolveIssueId (.obj [("id", .str "X")]) "uuid-2") =
      some ⟨.obj [("id", .str "X")], "worker-1", "T0"⟩ :=
  issue_duplicate_conflict ⟨"worker-2", "uuid-2", "T3", "T4"⟩
    (.obj [("id", .str "X")])
    [(.str "X", ⟨.obj [("id", .str "X")], "worker-1", "T0"⟩)]
    ⟨.obj [("id", .str "X")], "worker-1", "T0"⟩ (by decide) (by decide)

/-- C2: issuing a structured payload P and then verifying the resolved id
returns status valid together with exactly P merged with the assigned id
field, along with the worker identity and the timestamp recorded at
issuance. -/
theorem issue_verify_roundtrip (ctx : IssueCtx)
    (fields : List (String × Json)) (s s2 : Store) (tr : List StorageOp)
    (w : String) (rid : Json) (t : String)
    (hu : ctx.freshUuid ≠ "")
    (hrun : issueHandler ctx (.obj fields) s = (.issued w rid t, s2, tr)) :
    verifyHandler (.obj [("id", rid)]) s2 =
      (.valid ctx.workerId ctx.tsStore (jsonSetId (.obj fields) rid), s2,
        [.getRow rid]) := by
  have hb : bodyIsStructured (.obj fields) = true := rfl
  cases hx : storageExists s (resolveIssueId (.obj fields) ctx.freshUuid) with
  | true =>
      rw [issueHandler_present ctx _ s hb hx] at hrun
      exact absurd hrun (by simp)
  | false =>
      rw [issueHandler_absent ctx _ s hb hx] at hrun
      simp only [Prod.mk.injEq, IssueResult.issued.injEq] at hrun
      obtain ⟨⟨hw, hrid, ht⟩, hs2, htr⟩ := hrun
      subst hs2
      subst hrid
      exact verifyHandler_found _ _ _
        (truthy_resolveIssueId _ _ hu) (lookupStore_cons_self _ _ _)

/-- C2 witness: issuing the payload with field name Jane and verifying the
generated id returns status valid with the stored payload, worker and
issuance timestamp. -/
theorem issue_verify_roundtrip_witness :
    verifyHandler (.obj [("id", .str "uuid-1")])
        [(.str "uuid-1",
          ⟨.obj [("name", .str "Jane"), ("id", .str "uuid-1")],
            "worker-1", "T1"⟩)] =
      (.valid "worker-1" "T1"
          (jsonSetId (.obj [("name", .str "Jane")]) (.str "uuid-1")),
        [(.str "uuid-1",
          ⟨.obj [("name", .str "Jane"), ("id", .str "uuid-1")],
            "worker-1", "T1"⟩)],
        [.getRow (.str "uuid-1")]) :=
  issue_verify_roundtrip ⟨"worker-1", "uuid-1", "T1", "T2"⟩
    [("name", .str "Jane")] []
    [(.str "uuid-1",
      ⟨.obj [("name", .str "Jane"), ("id", .str "uuid-1")],
        "worker-1", "T1"⟩)]
    [.existsCheck (.str "uuid-1"), .saveRow (.str "uuid-1")]
    "worker-1" (.str "uuid-1") "T2" (by decide) (by decide)

/-- C3: the storage save on an id that already has a record fails with the
primary-key constraint error of the storage engine and never returns a
store, so an existing record is never silently overwritten; the rejection
happens inside save itself, independent of any prior exists check by the
caller. -/
theorem save_rejects_duplicate (s : Store) (i : Json) (r0 r : StoredRecord)
    (h : lookupStore s i = some r0) :
    storageSave s i r = .error .primaryKeyConflict ∧
    ∀ s2 : Store, storageSave s i r ≠ .ok s2 := by
  have he : storageExists s i = true := by simp [storageExists, h]
  refine ⟨by simp [storageSave, he], fun s2 hc => ?_⟩
  simp [storageSave, he] at hc

/-- C3 witness: saving a second record under the occupied id X yields the
primary-key constraint error. -/
theorem save_rejects_duplicate_witness :
    storageSave [(.str "X", ⟨.obj [], "worker-1", "T0"⟩)] (.str "X")
        ⟨.obj [], "worker-2", "T9"⟩ = .error .primaryKeyConflict ∧
    ∀ s2 : Store,
      storageSave [(.str "X", ⟨.obj [], "worker-1", "T0"⟩)] (.str "X")
        ⟨.obj [], "worker-2", "T9"⟩ ≠ .ok s2 :=
  save_rejects_duplicate [(.str "X", ⟨.obj [], "worker-1", "T0"⟩)]
    (.str "X") ⟨.obj [], "worker-1", "T0"⟩ ⟨.obj [], "worker-2", "T9"⟩
    (by decide)

/-- C4 counterexample: under the interleaving exists1, exists2, save1,
save2 on a store without the id X, both exists checks pass, request 1
wins the save, and request 2 hits the primary-key constraint, which the
catch block of the handler turns into the 500 server-error response; so
the losing request does not receive the conflict outcome under this
interleaving, refuting the claim as stated. -/
theorem race_loser_gets_server_error :
    (raceRun (.str "X") ⟨.obj [("id", .str "X")], "w1", "T1"⟩
        ⟨.obj [("id", .str "X")], "w2", "T2"⟩
        ⟨[], .atExists, .atExists⟩ [true, false, true, false]).p1 =
      .finished (.issued "w1" (.str "X") "T1") ∧
    (raceRun (.str "X") ⟨.obj [("id", .str "X")], "w1", "T1"⟩
        ⟨.obj [("id", .str "X")], "w2", "T2"⟩
        ⟨[], .atExists, .atExists⟩ [true, false, true, false]).p2 =
      .finished .serverError ∧
    IssueResult.serverError ≠ IssueResult.conflict := by decide

/-- C4 (amended): for two concurrent issue requests with the same resolved
id, initially absent, under every interleaving of their storage steps in
which both requests finish, exactly one finishes with the issued response
while the other finishes with a non-success outcome: the 409 conflict, or
the 500 server error produced when the race reaches both saves and the
primary-key constraint rejects the second; never two successes and never
zero successes. -/
theorem race_exactly_one_success (i : Json) (r1 r2 : StoredRecord)
    (s0 : Store) (sched : List Bool) (fin : RaceState)
    (habsent : storageExists s0 i = false)
    (hrun : raceRun i r1 r2 ⟨s0, .atExists, .atExists⟩ sched = fin)
    (hf1 : isFinished fin.p1 = true) (hf2 : isFinished fin.p2 = true) :
    (isIssued fin.p1 = true ∧
      (fin.p2 = .finished .conflict ∨ fin.p2 = .finished .serverError)) ∨
    ((fin.p1 = .finished .conflict ∨ fin.p1 = .finished .serverError) ∧
      isIssued fin.p2 = true) := by
  have hinv0 : raceInv i ⟨s0, .atExists, .atExists⟩ := by
    rw [raceInv, if_neg (by simp [habsent])]
    exact ⟨Or.inl rfl, Or.inl rfl⟩
  have hinv := raceInv_run i r1 r2 sched _ hinv0
  rw [hrun, raceInv] at hinv
  by_cases he : storageExists fin.store i = true
  · rw [if_pos he] at hinv
    rcases hinv with ⟨hi1, hl2⟩ | ⟨hl1, hi2⟩
    · exact Or.inl ⟨hi1, loser_finished hl2 hf2⟩
    · exact Or.inr ⟨loser_finished hl1 hf1, hi2⟩
  · rw [if_neg he] at hinv
    rcases hinv.1 with h | h <;> rw [h] at hf1 <;> simp [isFinished] at hf1

/-- C4 witness: under the interleaving exists1, save1, exists2 the first
request is issued and the second receives the conflict. -/
theorem race_exactly_one_success_witness :
    (isIssued (RaceState.p1
        ⟨[(.str "X", ⟨.obj [("id", .str "X")], "w1", "T1"⟩)],
          .finished (.issued "w1" (.str "X") "T1"),
          .finished .conflict⟩) = true ∧
      (RaceState.p2
        ⟨[(.str "X", ⟨.obj [("id", .str "X")], "w1", "T1"⟩)],
          .finished (.issued "w1" (.str "X") "T1"),
          .finished .conflict⟩ = .finished .conflict ∨
       RaceState.p2
        ⟨[(.str "X", ⟨.obj [("id", .str "X")], "w1", "T1"⟩)],
          .finished (.issued "w1" (.str "X") "T1"),
          .finished .conflict⟩ = .finished .serverError)) ∨
    ((RaceState.p1
        ⟨[(.str "X", ⟨.obj [("id", .str "X")], "w1", "T1"⟩)],
          .finished (.issued "w1" (.str "X") "T1"),
          .finished .conflict⟩ = .finished .conflict ∨
      RaceState.p1
        ⟨[(.str "X", ⟨.obj [("id", .str "X")], "w1", "T1"⟩)],
          .finished (.issued "w1" (.str "X") "T1"),
          .finished .conflict⟩ = .finished .serverError) ∧
      isIssued (RaceState.p2
        ⟨[(.str "X", ⟨.obj [("id", .str "X")], "w1", "T1"⟩)],
          .finished (.issued "w1" (.str "X") "T1"),
          .finished .conflict⟩) = true) :=
  race_exactly_one_success (.str "X")
    ⟨.obj [("id", .str "X")], "w1", "T1"⟩
    ⟨.obj [("id", .str "X")], "w2", "T2"⟩
    [] [true, true, false]
    ⟨[(.str "X", ⟨.obj [("id", .str "X")], "w1", "T1"⟩)],
      .finished (.issued "w1" (.str "X") "T1"), .finished .conflict⟩
    (by decide) (by decide) (by decide) (by decide)

/-- C5: verifying an id that was never issued returns the not-found
outcome as a normal response, never the server error and never a partial
match, and the underlying storage get returns an explicit none for the
missing key instead of throwing. -/
theorem verify_unknown_not_found (body : Json) (v : Json) (s : Store)
    (hid : getProp body "id" = some v) (htr : truthy v = true)
    (habsent : lookupStore s v = none) :
    verifyHandler body s = (.notFound, s, [.getRow v]) ∧
    storageGet s v = none := by
  have hb := bodyIsStructured_of_getProp hid
  exact ⟨by simp [verifyHandler, hb, hid, htr, storageGet, habsent], habsent⟩

/-- C5 witness: verifying the never-issued id Y on a store holding only X
answers not found. -/
theorem verify_unknown_not_found_witness :
    verifyHandler (.obj [("id", .str "Y")])
        [(.str "X", ⟨.obj [], "worker-1", "T0"⟩)] =
      (.notFound, [(.str "X", ⟨.obj [], "worker-1", "T0"⟩)],
        [.getRow (.str "Y")]) ∧
    storageGet [(.str "X", ⟨.obj [], "worker-1", "T0"⟩)] (.str "Y") =
      none :=
  verify_unknown_not_found (.obj [("id", .str "Y")]) (.str "Y")
    [(.str "X", ⟨.obj [], "worker-1", "T0"⟩)]
    (by decide) (by decide) (by decide)

/-- C6 counterexample: an array body is not rejected by the issue
operation: typeof of an array is the string object, so the guard accepts
it, and issuing the empty array body on an empty store succeeds with the
201 issued outcome and writes a row instead of returning a validation
error with no mutation. -/
theorem issue_array_body_not_rejected :
    issueHandler ⟨"worker-1", "uuid-1", "T1", "T2"⟩ (.arr []) [] =
      (.issued "worker-1" (.str "uuid-1") "T2",
        [(.str "uuid-1", ⟨.obj [("id", .str "uuid-1")], "worker-1", "T1"⟩)],
        [.existsCheck (.str "uuid-1"), .saveRow (.str "uuid-1")]) ∧
    IssueResult.issued "worker-1" (.str "uuid-1") "T2" ≠ .invalidFormat ∧
    ([(.str "uuid-1", ⟨.obj [("id", .str "uuid-1")], "worker-1", "T1"⟩)] :
      Store) ≠ [] := by decide

/-- C6 (amended): for every request body that is neither an object nor an
array — a bare string, null, a number or a boolean — both the issue and
the verify operation return the validation error, attempt no storage
access (the access trace is empty) and leave the store unchanged; an
array body, by contrast, passes the object-type guard of both handlers
and is processed further. -/
theorem primitive_body_validation_error (ctx : IssueCtx) (body : Json)
    (s : Store) (h : isPrimitiveBody body = true) :
    issueHandler ctx body s = (.invalidFormat, s, []) ∧
    verifyHandler body s = (.invalidFormat, s, []) := by
  have hb := bodyIsStructured_of_primitive h
  exact ⟨issueHandler_invalid ctx body s hb, by simp [verifyHandler, hb]⟩

/-- C6 witness: a bare string body is rejected by both operations with no
storage access. -/
theorem primitive_body_validation_error_witness :
    issueHandler ⟨"worker-1", "uuid-1", "T1", "T2"⟩ (.str "hello")
        [(.str "X", ⟨.obj [], "worker-1", "T0"⟩)] =
      (.invalidFormat, [(.str "X", ⟨.obj [], "worker-1", "T0"⟩)], []) ∧
    verifyHandler (.str "hello")
        [(.str "X", ⟨.obj [], "worker-1", "T0"⟩)] =
      (.invalidFormat, [(.str "X", ⟨.obj [], "worker-1", "T0"⟩)], []) :=
  primitive_body_validation_error ⟨"worker-1", "uuid-1", "T1", "T2"⟩
    (.str "hello") [(.str "X", ⟨.obj [], "worker-1", "T0"⟩)] (by decide)

/-- C7 counterexample: the timestamp in the 201 response comes from a
second new Date call made after the save, so when the clock ticks between
the two calls the response timestamp differs from the one stored in the
record: with clock readings T1 then T2 the record stores T1 while the
response carries T2, refuting the claimed equality. -/
theorem issue_response_timestamp_differs :
    (issueHandler ⟨"worker-1", "uuid-1", "T1", "T2"⟩
        (.obj [("name", .str "Jane")]) []).1 =
      .issued "worker-1" (.str "uuid-1") "T2" ∧
    lookupStore (issueHandler ⟨"worker-1", "uuid-1", "T1", "T2"⟩
        (.obj [("name", .str "Jane")]) []).2.1 (.str "uuid-1") =
      some ⟨.obj [("name", .str "Jane"), ("id", .str "uuid-1")],
        "worker-1", "T1"⟩ ∧
    ("T2" : String) ≠ "T1" := by decide

/-- C7 (amended): a successful issuance persists exactly one new row
holding the merged payload, the worker identity and the first clock
reading, and returns the resolved id, the same worker identity and the
second clock reading, which is freshly computed and need not equal the
stored one; on every path whose response is not the issued one the store
is unchanged. -/
theorem issue_success_effects (ctx : IssueCtx) (body : Json) (s : Store) :
    match issueHandler ctx body s with
    | (.issued w j t, s2, tr) =>
        w = ctx.workerId ∧ t = ctx.tsResp ∧
        j = resolveIssueId body ctx.freshUuid ∧
        s2 = (j, ⟨jsonSetId body j, ctx.workerId, ctx.tsStore⟩) :: s ∧
        s2.length = s.length + 1 ∧
        tr = [.existsCheck j, .saveRow j]
    | (_, s2, _) => s2 = s := by
  by_cases hb : bodyIsStructured body = true
  · cases hx : storageExists s (resolveIssueId body ctx.freshUuid) with
    | true => rw [issueHandler_present ctx body s hb hx]
    | false =>
        rw [issueHandler_absent ctx body s hb hx]
        simp
  · rw [issueHandler_invalid ctx body s (by simp [hb])]

/-- C8: verification is a pure read: the store after any verify call
equals the store before, and whenever the requested id is present the
handler returns the valid outcome built from the stored record whatever
its content, so the content of a previously stored record never makes
verification fail. -/
theorem verify_pure_read (body : Json) (s : Store) :
    (verifyHandler body s).2.1 = s ∧
    (∀ v r, getProp body "id" = some v → truthy v = true →
      lookupStore s v = some r →
      (verifyHandler body s).1 =
        .valid r.worker r.timestamp r.credential) := by
  constructor
  · rw [verifyHandler]
    by_cases hb : bodyIsStructured body = true
    · rw [if_pos hb]
      cases hgp : getProp body "id" with
      | none => rfl
      | some v =>
          dsimp only
          by_cases htr : truthy v = true
          · rw [if_pos htr]
            cases storageGet s v <;> rfl
          · rw [if_neg htr]
    · rw [if_neg hb]
  · intro v r hgp htr hget
    have hb := bodyIsStructured_of_getProp hgp
    simp [verifyHandler, hb, hgp, htr, storageGet, hget]

/-- C8 witness: verifying the stored id X leaves the store unchanged and
returns the valid outcome built from the stored record. -/
theorem verify_pure_read_witness :
    (verifyHandler (.obj [("id", .str "X")])
        [(.str "X", ⟨.obj [("id", .str "X")], "worker-1", "T0"⟩)]).2.1 =
      [(.str "X", ⟨.obj [("id", .str "X")], "worker-1", "T0"⟩)] ∧
    (verifyHandler (.obj [("id", .str "X")])
        [(.str "X", ⟨.obj [("id", .str "X")], "worker-1", "T0"⟩)]).1 =
      .valid "worker-1" "T0" (.obj [("id", .str "X")]) :=
  ⟨(verify_pure_read (.obj [("id", .str "X")])
      [(.str "X", ⟨.obj [("id", .str "X")], "worker-1", "T0"⟩)]).1,
    (verify_pure_read (.obj [("id", .str "X")])
      [(.str "X", ⟨.obj [("id", .str "X")], "worker-1", "T0"⟩)]).2
      (.str "X") ⟨.obj [("id", .str "X")], "worker-1", "T0"⟩
      (by decide) (by decide) (by decide)⟩

/-- C9: an issue request whose object body carries a falsy id value (the
empty string, 0, false or null) is not rejected and the supplied value is
not used: the handler silently discards it and proceeds with the freshly
generated UUID as the credential id. -/
theorem issue_falsy_id_uses_uuid (ctx : IssueCtx)
    (fields : List (String × Json)) (v : Json) (s : Store)
    (hid : lookupField fields "id" = some v) (hfalsy : truthy v = false)
    (habsent : storageExists s (.str ctx.freshUuid) = false) :
    resolveIssueId (.obj fields) ctx.freshUuid = .str ctx.freshUuid ∧
    (issueHandler ctx (.obj fields) s).1 =
      .issued ctx.workerId (.str ctx.freshUuid) ctx.tsResp := by
  have hres : resolveIssueId (.obj fields) ctx.freshUuid =
      .str ctx.freshUuid := by
    rw [resolveIssueId]
    simp [getProp, hid, hfalsy]
  refine ⟨hres, ?_⟩
  have habs2 : storageExists s
      (resolveIssueId (.obj fields) ctx.freshUuid) = false := by
    rw [hres]; exact habsent
  rw [issueHandler_absent ctx (.obj fields) s rfl habs2, hres]

/-- C9 witness: a body carrying the empty-string id is issued under the
generated UUID, not rejected. -/
theorem issue_falsy_id_uses_uuid_witness :
    resolveIssueId (.obj [("id", .str ""), ("name", .str "Jane")])
      "uuid-1" = .str "uuid-1" ∧
    (issueHandler ⟨"worker-1", "uuid-1", "T1", "T2"⟩
        (.obj [("id", .str ""), ("name", .str "Jane")]) []).1 =
      .issued "worker-1" (.str "uuid-1") "T2" :=
  issue_falsy_id_uses_uuid ⟨"worker-1", "uuid-1", "T1", "T2"⟩
    [("id", .str ""), ("name", .str "Jane")] (.str "") []
    (by decide) (by decide) (by decide)

/-- C10: a verify request whose object body carries a falsy id value (the
empty string, 0, false or null) is rejected with the
credential-id-required validation error, performs no storage lookup (the
access trace is empty) and leaves the store unchanged, instead of being
treated as an unknown-id lookup. -/
theorem verify_falsy_id_rejected (fields : List (String × Json)) (v : Json)
    (s : Store) (hid : lookupField fields "id" = some v)
    (hfalsy : truthy v = false) :
    verifyHandler (.obj fields) s = (.idRequired, s, []) := by
  have hbv : bodyIsStructured (Json.obj fields) = true := rfl
  simp [verifyHandler, hbv, getProp, hid, hfalsy]

/-- C10 witness: verifying with a null id value is rejected with the
validation error and an empty access trace. -/
theorem verify_falsy_id_rejected_witness :
    verifyHandler (.obj [("id", .null)])
        [(.str "X", ⟨.obj [], "worker-1", "T0"⟩)] =
      (.idRequired, [(.str "X", ⟨.obj [], "worker-1", "T0"⟩)], []) :=
  verify_falsy_id_rejected [("id", .null)] .null
    [(.str "X", ⟨.obj [], "worker-1", "T0"⟩)] (by decide) (by decide)

end KubeCredential
